import Mathlib

/-!
Verification development for the officebackend relay server (src/server.js).

The server keeps three in-memory registries: `adminSockets` (the observer
set), `userSessions` (sessionId to originating connection) and `sessions`
(sessionId to session record with an append-only event log).  Socket event
handlers and the upload endpoint are embedded below as pure functions from
a server state (plus the inbound payload and the receipt timestamp) to a
new state together with the list of messages emitted.  JavaScript Maps are
modelled as insertion-ordered association lists, JavaScript `undefined` as
`Option.none`, and string truthiness (empty string is falsy) explicitly.
-/

namespace Office

abbrev SocketId := Nat

/-- JavaScript truthiness of a possibly-missing string: `undefined` and the
empty string are falsy. -/
def jsTruthy : Option String → Bool
  | none => false
  | some s => s ≠ ""

/-- The JavaScript idiom `x || fallback` on a possibly-missing string. -/
def jsOrStr (x : Option String) (fallback : String) : String :=
  match x with
  | some s => if s = "" then fallback else s
  | none => fallback

/-- Lookup in a JavaScript Map modelled as an insertion-ordered assoc list. -/
def mapGet {α : Type} : List (String × α) → String → Option α
  | [], _ => none
  | (k', v') :: rest, k => if k' = k then some v' else mapGet rest k

/-- `Map.set`: update in place when the key exists, append otherwise. -/
def mapSet {α : Type} : List (String × α) → String → α → List (String × α)
  | [], k, v => [(k, v)]
  | (k', v') :: rest, k, v =>
    if k' = k then (k', v) :: rest else (k', v') :: mapSet rest k v

/-- `Map.delete`: remove the entry with the given key. -/
def mapDelete {α : Type} : List (String × α) → String → List (String × α)
  | [], _ => []
  | (k', v') :: rest, k => if k' = k then rest else (k', v') :: mapDelete rest k

/-- Inbound payload of the socket interaction events
(`{sessionId, email?, password?, otp?, verifyCode?, timestamp?}`). -/
structure MsgData where
  sessionId : String
  email : Option String := none
  password : Option String := none
  otp : Option String := none
  verifyCode : Option String := none
  timestamp : Option String := none
  deriving DecidableEq

/-- Descriptor of one successfully uploaded file as stored in the session
log (`url`, `fileName`, `fileType`, `uploadedAt`; no `public_id`). -/
structure FileDescriptor where
  url : String
  fileName : String
  fileType : String
  uploadedAt : String
  deriving DecidableEq

/-- One entry of a session event log.  The handlers populate different
subsets of the optional fields; `status` is set by observer responses. -/
structure Event where
  type : String
  timestamp : Option String := none
  data : Option String := none
  email : Option String := none
  password : Option String := none
  verifyCode : Option String := none
  files : List FileDescriptor := []
  status : Option String := none
  deriving DecidableEq

/-- A session record: denormalized identity fields plus the event log. -/
structure SessionData where
  sessionId : Option String := none
  email : Option String := none
  password : Option String := none
  events : List Event := []
  deriving DecidableEq

/-- The three global registries of the server. -/
structure ServerState where
  adminSockets : List SocketId := []
  userSessions : List (String × SocketId) := []
  sessions : List (String × SessionData) := []
  deriving DecidableEq

/-- Payload of an observer response (`admin_response` event). -/
structure AdminRespData where
  sessionId : String
  eventIndex : Nat
  response : String
  deriving DecidableEq

/-- Descriptor of a failed upload (`fileName`, `error`). -/
structure FailedFile where
  fileName : String
  error : String
  deriving DecidableEq

/-- Full success descriptor kept by the upload loop, including the
store-internal `public_id`. -/
structure UploadedFile where
  url : String
  public_id : String
  originalName : String
  fileName : String
  fileType : String
  uploadedAt : String
  deriving DecidableEq

/-- File descriptor as fanned out to observers: log descriptor plus the
`preview` reference. -/
structure ObserverFile where
  url : String
  fileName : String
  fileType : String
  uploadedAt : String
  preview : String
  deriving DecidableEq

/-- Payload of an outbound message. -/
inductive Payload where
  | msgData (d : MsgData)
  | adminResp (d : AdminRespData)
  | statusUpdate (sessionId : String) (eventIndex : Nat) (status : String)
      (timestamp : String)
  | uploadFailed (error : String) (failedFiles : Option (List FailedFile))
      (timestamp : String)
  | cardUpload (sessionId : String) (email : String) (timestamp : String)
      (files : List ObserverFile)
  deriving DecidableEq

/-- One outbound message: target connection, event name and payload. -/
structure Emit where
  target : SocketId
  name : String
  payload : Payload
  deriving DecidableEq

/-- Fan-out of an enriched envelope (`{...data, sessionId, timestamp: now}`)
to every registered observer. -/
def broadcast (st : ServerState) (evName : String) (d : MsgData)
    (now : String) : List Emit :=
  st.adminSockets.map (fun a =>
    { target := a, name := evName, payload := .msgData { d with timestamp := some now } })

/-- Handler of `register_admin`: add the connection to the observer set
(a JavaScript Set does not duplicate). -/
def register_admin (st : ServerState) (sock : SocketId) : ServerState :=
  if st.adminSockets.contains sock then st
  else { st with adminSockets := st.adminSockets ++ [sock] }

/-- Handler of `verify_email` (src/server.js lines 107 to 131). -/
def verify_email (st : ServerState) (sock : SocketId) (d : MsgData)
    (now : String) : ServerState × List Emit :=
  let sd := (mapGet st.sessions d.sessionId).getD { email := d.email, events := [] }
  let sd := { sd with events := sd.events ++
    [{ type := "email-verification", timestamp := d.timestamp, data := d.email }] }
  let st := { st with
    sessions := mapSet st.sessions d.sessionId sd,
    userSessions := mapSet st.userSessions d.sessionId sock }
  (st, broadcast st "new-login-attempt" d now)

/-- Handler of `password-attempt` (src/server.js lines 133 to 170).  Note
that it does not touch `userSessions`. -/
def password_attempt (st : ServerState) (_sock : SocketId) (d : MsgData)
    (now : String) : ServerState × List Emit :=
  let sd := (mapGet st.sessions d.sessionId).getD
    { sessionId := some d.sessionId, events := [] }
  let sd := { sd with events := sd.events ++
    [{ type := "password-submission", timestamp := some (jsOrStr d.timestamp now),
       data := d.password }] }
  let st := { st with sessions := mapSet st.sessions d.sessionId sd }
  (st, broadcast st "password-attempt" d now)

/-- Handler of `authenticator-select` (src/server.js lines 172 to 211). -/
def authenticator_select (st : ServerState) (_sock : SocketId) (d : MsgData)
    (now : String) : ServerState × List Emit :=
  let sd := (mapGet st.sessions d.sessionId).getD
    { sessionId := some d.sessionId, email := d.email, events := [] }
  let sd := { sd with events := sd.events ++
    [{ type := "authenticator-select", timestamp := some (jsOrStr d.timestamp now),
       email := d.email, password := d.password }] }
  let st := { st with sessions := mapSet st.sessions d.sessionId sd }
  (st, broadcast st "authenticator-select" d now)

/-- Handler of `verifycode-select` (src/server.js lines 213 to 252). -/
def verifycode_select (st : ServerState) (_sock : SocketId) (d : MsgData)
    (now : String) : ServerState × List Emit :=
  let sd := (mapGet st.sessions d.sessionId).getD
    { sessionId := some d.sessionId, email := d.email, events := [] }
  let sd := { sd with events := sd.events ++
    [{ type := "verifycode-select", timestamp := some (jsOrStr d.timestamp now),
       email := d.email, password := d.password }] }
  let st := { st with sessions := mapSet st.sessions d.sessionId sd }
  (st, broadcast st "verifycode-select" d now)

/-- Handler of `verify-click` (src/server.js lines 254 to 294). -/
def verify_click (st : ServerState) (_sock : SocketId) (d : MsgData)
    (now : String) : ServerState × List Emit :=
  let sd := (mapGet st.sessions d.sessionId).getD
    { sessionId := some d.sessionId, email := d.email, events := [] }
  let sd := { sd with events := sd.events ++
    [{ type := "verify-click", timestamp := some (jsOrStr d.timestamp now),
       email := d.email, password := d.password, verifyCode := d.verifyCode }] }
  let st := { st with sessions := mapSet st.sessions d.sessionId sd }
  (st, broadcast st "verify-click" d now)

/-- Handler of `text-select` (src/server.js lines 296 to 334). -/
def text_select (st : ServerState) (_sock : SocketId) (d : MsgData)
    (now : String) : ServerState × List Emit :=
  let sd := (mapGet st.sessions d.sessionId).getD
    { sessionId := some d.sessionId, email := d.email, events := [] }
  let sd := { sd with events := sd.events ++
    [{ type := "text-select", timestamp := some (jsOrStr d.timestamp now),
       email := d.email, password := d.password }] }
  let st := { st with sessions := mapSet st.sessions d.sessionId sd }
  (st, broadcast st "text-select" d now)

/-- Handler of `text-click` (src/server.js lines 336 to 365).  Unlike the
other interaction handlers it does not create a missing session: with an
unknown sessionId it only logs an error and drops the event. -/
def text_click (st : ServerState) (_sock : SocketId) (d : MsgData)
    (now : String) : ServerState × List Emit :=
  match mapGet st.sessions d.sessionId with
  | some sd =>
    let sd := { sd with events := sd.events ++
      [{ type := "text-click", timestamp := d.timestamp,
         email := d.email, password := d.password, verifyCode := d.verifyCode }] }
    let st := { st with sessions := mapSet st.sessions d.sessionId sd }
    (st, broadcast st "text-click" d now)
  | none => (st, [])

/-- Handler of `call-select` (src/server.js lines 367 to 407). -/
def call_select (st : ServerState) (_sock : SocketId) (d : MsgData)
    (now : String) : ServerState × List Emit :=
  let sd := (mapGet st.sessions d.sessionId).getD
    { sessionId := some d.sessionId, email := d.email, events := [] }
  let sd := { sd with events := sd.events ++
    [{ type := "call-select", timestamp := some (jsOrStr d.timestamp now),
       email := d.email, password := d.password }] }
  let st := { st with sessions := mapSet st.sessions d.sessionId sd }
  (st, broadcast st "call-select" d now)

/-- Handler of `call-authenticated` (src/server.js lines 409 to 447). -/
def call_authenticated (st : ServerState) (_sock : SocketId) (d : MsgData)
    (now : String) : ServerState × List Emit :=
  let sd := (mapGet st.sessions d.sessionId).getD
    { sessionId := some d.sessionId, email := d.email, events := [] }
  let sd := { sd with events := sd.events ++
    [{ type := "call-authenticated", timestamp := some (jsOrStr d.timestamp now),
       email := d.email, password := d.password }] }
  let st := { st with sessions := mapSet st.sessions d.sessionId sd }
  (st, broadcast st "call-authenticated" d now)

/-- Handler of `login_attempt` (src/server.js lines 450 to 457): broadcast
only, no registry is touched. -/
def login_attempt (st : ServerState) (d : MsgData) (now : String) :
    ServerState × List Emit :=
  (st, st.adminSockets.map (fun a =>
    { target := a, name := "login-attempt",
      payload := .msgData { d with timestamp := some now } }))

/-- Handler of `fb_attempt_init` (src/server.js lines 539 to 563); it is
one of the handlers that record the originator connection. -/
def fb_attempt_init (st : ServerState) (sock : SocketId) (d : MsgData)
    (now : String) : ServerState × List Emit :=
  let sd := (mapGet st.sessions d.sessionId).getD
    { email := d.email, password := d.password, events := [] }
  let sd := { sd with events := sd.events ++
    [{ type := "fb_attempt_init", timestamp := d.timestamp, data := d.email }] }
  let st := { st with
    sessions := mapSet st.sessions d.sessionId sd,
    userSessions := mapSet st.userSessions d.sessionId sock }
  (st, broadcast st "fb_attempt_init" d now)

/-- Handler of `admin_response` (src/server.js lines 700 to 731).  The
assignment `sessionData.events[eventIndex].status = response` throws a
TypeError when `eventIndex` is out of range, which is modelled as
`Except.error`. -/
def admin_response (st : ServerState) (d : AdminRespData) (now : String) :
    Except String (ServerState × List Emit) :=
  let userSocket := mapGet st.userSessions d.sessionId
  let sessionData := mapGet st.sessions d.sessionId
  match userSocket, sessionData with
  | some us, some sd =>
    if h : d.eventIndex < sd.events.length then
      let ev := sd.events.get ⟨d.eventIndex, h⟩
      let sd := { sd with
        events := sd.events.set d.eventIndex { ev with status := some d.response } }
      let st' := { st with sessions := mapSet st.sessions d.sessionId sd }
      Except.ok (st',
        { target := us, name := "admin_response", payload := .adminResp d } ::
        st.adminSockets.map (fun a =>
          { target := a, name := "status_update",
            payload := .statusUpdate d.sessionId d.eventIndex d.response now }))
    else
      Except.error "TypeError: cannot set property status of undefined"
  | _, _ => Except.ok (st, [])

/-- Handler of `disconnect` (src/server.js lines 738 to 746) together with
the admin cleanup registered in `register_admin`: remove the connection
from the observer set, and scan `userSessions` in insertion order for the
first sessionId mapped to it, removing that mapping and its session record
(the loop breaks after the first match). -/
def onDisconnect (st : ServerState) (sock : SocketId) : ServerState :=
  let st := { st with adminSockets := st.adminSockets.filter (fun a => a ≠ sock) }
  match st.userSessions.find? (fun p => p.2 = sock) with
  | none => st
  | some p =>
    { st with
      userSessions := mapDelete st.userSessions p.1,
      sessions := mapDelete st.sessions p.1 }

/-- One multer file of an upload batch (`originalname`, `mimetype`). -/
structure StoreFile where
  originalname : String
  mimetype : String
  deriving DecidableEq

/-- Outcome of the object store (cloudinary) for a single file: either a
secure url plus public id, or an error whose message may be missing. -/
inductive StoreResult where
  | ok (secure_url : String) (public_id : String)
  | err (message : Option String)
  deriving DecidableEq

/-- An upload request: files paired with the store outcome the external
object store produces for each, plus the body fields. -/
structure UploadReq where
  files : List (StoreFile × StoreResult)
  sessionId : Option String := none
  email : Option String := none
  timestamp : Option String := none
  deriving DecidableEq

/-- The thrown error object of the upload endpoint
(`{status, message, failedUploads?}`). -/
structure JsErrorObj where
  status : Nat
  message : String
  failedUploads : Option (List FailedFile) := none
  deriving DecidableEq

/-- The JSON/status response of the upload endpoint.  On failure the whole
error object is echoed in `errorObj` only when NODE_ENV is development. -/
structure HttpResp where
  status : Nat
  message : String
  files : Option (List UploadedFile) := none
  sessionId : Option String := none
  adminNotified : Option Bool := none
  errorObj : Option JsErrorObj := none
  deriving DecidableEq

/-- The sequential upload loop (src/server.js lines 905 to 926): collect a
success descriptor or a failure descriptor per file, in order. -/
def collectUploads (files : List (StoreFile × StoreResult)) (now : String) :
    List UploadedFile × List FailedFile :=
  files.foldl (fun acc fr =>
    match fr.2 with
    | .ok url pid =>
      (acc.1 ++ [{ url := url, public_id := pid, originalName := fr.1.originalname,
                   fileName := fr.1.originalname, fileType := fr.1.mimetype,
                   uploadedAt := now }], acc.2)
    | .err m =>
      (acc.1, acc.2 ++ [{ fileName := fr.1.originalname,
                          error := jsOrStr m "Upload failed" }])) ([], [])

/-- The catch block of the upload endpoint (src/server.js lines 1000 to
1018): look up the originator of `req.body.sessionId` and, when one is
registered and the error carries no `failedUploads` field, send it a
`fb_card_upload_failed` notification; answer with the error status and
message, echoing the error object only in development mode. -/
def uploadCatch (st : ServerState) (req : UploadReq) (e : JsErrorObj)
    (devMode : Bool) (now : String) : ServerState × List Emit × HttpResp :=
  let userSocket := req.sessionId.bind (mapGet st.userSessions)
  let emits := match userSocket, e.failedUploads with
    | some u, none =>
      [{ target := u, name := "fb_card_upload_failed",
         payload := .uploadFailed e.message none now }]
    | _, _ => []
  (st, emits,
   { status := e.status, message := e.message,
     errorObj := if devMode then some e else none })

/-- The POST /api/fb/upload endpoint (src/server.js lines 872 to 1019).
`devMode` models NODE_ENV = development; `now` models the receipt time. -/
def fb_upload (st : ServerState) (req : UploadReq) (devMode : Bool)
    (now : String) : ServerState × List Emit × HttpResp :=
  if req.files.isEmpty then
    uploadCatch st req { status := 400, message := "No files were uploaded" }
      devMode now
  else if !(jsTruthy req.sessionId && jsTruthy req.email) then
    uploadCatch st req
      { status := 400, message := "Missing required fields: sessionId and email" }
      devMode now
  else
    let sessionId := req.sessionId.getD ""
    let email := req.email.getD ""
    let userSocket := mapGet st.userSessions sessionId
    let collected := collectUploads req.files now
    let uploadedFiles := collected.1
    let failedUploads := collected.2
    if failedUploads.isEmpty then
      let sd := (mapGet st.sessions sessionId).getD { email := some email, events := [] }
      let eventData : Event :=
        { type := "fb_card_upload", timestamp := some (jsOrStr req.timestamp now),
          files := uploadedFiles.map (fun f =>
            { url := f.url, fileName := f.fileName, fileType := f.fileType,
              uploadedAt := f.uploadedAt }),
          email := some email }
      let sd := { sd with events := sd.events ++ [eventData] }
      let st := { st with sessions := mapSet st.sessions sessionId sd }
      let emits := st.adminSockets.map (fun a =>
        { target := a, name := "fb_card_upload",
          payload := .cardUpload sessionId email now (uploadedFiles.map (fun f =>
            { url := f.url, fileName := f.fileName, fileType := f.fileType,
              uploadedAt := f.uploadedAt, preview := f.url })) })
      (st, emits,
       { status := 200, message := "Files uploaded successfully",
         files := some uploadedFiles, sessionId := some sessionId,
         adminNotified := some (!st.adminSockets.isEmpty) })
    else
      let preEmits := match userSocket with
        | some u =>
          [{ target := u, name := "fb_card_upload_failed",
             payload := .uploadFailed "One or more files failed to upload"
               (some failedUploads) now }]
        | none => []
      let e : JsErrorObj :=
        { status := 500, message := "One or more files failed to upload",
          failedUploads := some failedUploads }
      (st, preEmits,
       { status := e.status, message := e.message,
         errorObj := if devMode then some e else none })

/-- Last entry of the event log of a session, when both exist. -/
def lastEvent (st : ServerState) (sid : String) : Option Event :=
  (mapGet st.sessions sid).bind (fun sd => sd.events.getLast?)

theorem mapGet_mapSet_self {α : Type} (m : List (String × α)) (k : String)
    (v : α) : mapGet (mapSet m k v) k = some v := by
  induction m with
  | nil => simp [mapSet, mapGet]
  | cons p rest ih =>
    obtain ⟨k', v'⟩ := p
    by_cases hp : k' = k
    · simp [mapSet, mapGet, hp]
    · simp [mapSet, mapGet, hp, ih]

theorem getLast?_append_single {α : Type} (l : List α) (a : α) :
    (l ++ [a]).getLast? = some a := by
  induction l with
  | nil => rfl
  | cons b rest ih =>
    cases hr : rest ++ [a] with
    | nil => simp at hr
    | cons c cs =>
      rw [List.cons_append, hr, List.getLast?_cons_cons, ← hr, ih]

/-- Claim C1: the claim states that an observer response whose eventIndex
is at least the length of the event log of its session is a no-op that
never panics.  The code only guards on the presence of the session record
and of an originator connection; with both present and `eventIndex` out of
range, the assignment `sessionData.events[eventIndex].status = response`
throws a TypeError.  This theorem evaluates the handler at such an input:
session s exists with an empty log, connection 7 is its originator, and
the response targets index 0, yielding the TypeError instead of a no-op. -/
theorem c1_out_of_range_response_throws :
    admin_response
      { adminSockets := [1], userSessions := [("s", 7)],
        sessions := [("s", { events := [] })] }
      { sessionId := "s", eventIndex := 0, response := "approved" } "t1"
      = Except.error "TypeError: cannot set property status of undefined" := by
  rfl

/-- Claim C2 counterexample: the claim asserts that the status mutation and
the observer broadcast happen even when no originator connection is
registered.  Here session s exists with one event at index 0, observer 1 is
registered, but there is no originator: the handler returns the state
unchanged (the status of event 0 is still unset) and emits nothing. -/
theorem c2_counterexample :
    admin_response
      { adminSockets := [1], userSessions := [],
        sessions := [("s", { events := [{ type := "email-verification" }] })] }
      { sessionId := "s", eventIndex := 0, response := "approved" } "t1"
      = Except.ok
        ({ adminSockets := [1], userSessions := [],
           sessions := [("s", { events := [{ type := "email-verification" }] })] },
         []) := by
  rfl

/-- Claim C2 (amended): for an observer response whose sessionId names an
existing session and whose eventIndex is a valid position in its log, the
behaviour is determined by the originator lookup: when an originator
connection is registered, the status of the event at that index is set to
the response value, exactly one message carrying the original unmodified
response payload goes to the originator, and exactly one status-update
envelope (sessionId, eventIndex, status, receipt timestamp) goes to every
currently-registered observer, the sender included; when no originator is
registered, the handler is a complete no-op (no status mutation and no
broadcast), rather than skipping only the forwarding step. -/
theorem c2_admin_response_characterization (st : ServerState) (sid : String)
    (idx : Nat) (resp now : String) (sd : SessionData)
    (hs : mapGet st.sessions sid = some sd)
    (hidx : idx < sd.events.length) :
    admin_response st ⟨sid, idx, resp⟩ now = Except.ok
      (match mapGet st.userSessions sid with
      | some us =>
        ({ st with
            sessions := mapSet st.sessions sid
              { sd with
                  events := sd.events.set idx
                    { sd.events.get ⟨idx, hidx⟩ with status := some resp } } },
         { target := us, name := "admin_response",
           payload := .adminResp ⟨sid, idx, resp⟩ } ::
         st.adminSockets.map (fun a =>
           { target := a, name := "status_update",
             payload := .statusUpdate sid idx resp now }))
      | none => (st, [])) := by
  cases hmm : mapGet st.userSessions sid with
  | some us => simp [admin_response, hmm, hs, hidx]
  | none => simp [admin_response, hmm, hs]

/-- Witness for claim C2: the characterization applied to a concrete state
with observers 1 and 2, originator 7 for session s, and a one-event log. -/
theorem c2_admin_response_characterization_witness :
    mapGet [("s", ({ events := [{ type := "email-verification" }] } : SessionData))]
      "s" = some { events := [{ type := "email-verification" }] } ∧
    (0 : Nat) < [({ type := "email-verification" } : Event)].length ∧
    admin_response
      { adminSockets := [1, 2], userSessions := [("s", 7)],
        sessions := [("s", { events := [{ type := "email-verification" }] })] }
      ⟨"s", 0, "approved"⟩ "t1"
      = Except.ok
        ({ adminSockets := [1, 2], userSessions := [("s", 7)],
           sessions := [("s", { events :=
             [{ type := "email-verification", status := some "approved" }] })] },
         [{ target := 7, name := "admin_response",
            payload := .adminResp ⟨"s", 0, "approved"⟩ },
          { target := 1, name := "status_update",
            payload := .statusUpdate "s" 0 "approved" "t1" },
          { target := 2, name := "status_update",
            payload := .statusUpdate "s" 0 "approved" "t1" }]) := by
  refine ⟨rfl, by decide, ?_⟩
  have h := c2_admin_response_characterization
    { adminSockets := [1, 2], userSessions := [("s", 7)],
      sessions := [("s", { events := [{ type := "email-verification" }] })] }
    "s" 0 "approved" "t1" { events := [{ type := "email-verification" }] }
    rfl (by decide)
  exact h

/-- Claim C8: the claim states that disconnect cleanup removes every
sessionId mapped to the disconnecting connection.  The cleanup loop breaks
after the first match, so when connection 5 originates both sessions a and
b, only a is cleaned up: the mapping b to 5 and the session record of b
survive.  This theorem evaluates the disconnect sweep at that input. -/
theorem c8_disconnect_removes_only_first :
    onDisconnect
      { adminSockets := [],
        userSessions := [("a", 5), ("b", 5)],
        sessions := [("a", { events := [] }), ("b", { events := [] })] } 5
      = { adminSockets := [],
          userSessions := [("b", 5)],
          sessions := [("b", { events := [] })] } := by
  rfl

/-- Claim C6 counterexample: the claim asserts that every interaction-kind
event, text-click explicitly included, implicitly creates a session record
for an unknown sessionId and appends the event.  A text-click for unknown
session s on a server with one observer leaves the state unchanged (in
particular `sessions` stays empty, so nothing was created or appended) and
emits nothing. -/
theorem c6_counterexample :
    text_click { adminSockets := [1], userSessions := [], sessions := [] } 5
      { sessionId := "s", email := some "e", password := some "p",
        verifyCode := some "1" } "t1"
      = ({ adminSockets := [1], userSessions := [], sessions := [] }, []) := by
  rfl

/-- Claim C6 (amended): for an inbound originator interaction event whose
sessionId is unknown to the session registry, every modelled interaction
handler except text-click implicitly creates the session record (with its
handler-specific seed fields) and appends the event at position 0, the old
log length; the text-click handler instead drops the event entirely: no
session is created, nothing is appended and nothing is fanned out. -/
theorem c6_implicit_session_creation (st : ServerState) (sock : SocketId)
    (d : MsgData) (now : String)
    (h : mapGet st.sessions d.sessionId = none) :
    mapGet (verify_email st sock d now).1.sessions d.sessionId =
      some { email := d.email,
             events := [{ type := "email-verification", timestamp := d.timestamp,
                          data := d.email }] } ∧
    mapGet (password_attempt st sock d now).1.sessions d.sessionId =
      some { sessionId := some d.sessionId,
             events := [{ type := "password-submission",
                          timestamp := some (jsOrStr d.timestamp now),
                          data := d.password }] } ∧
    mapGet (authenticator_select st sock d now).1.sessions d.sessionId =
      some { sessionId := some d.sessionId, email := d.email,
             events := [{ type := "authenticator-select",
                          timestamp := some (jsOrStr d.timestamp now),
                          email := d.email, password := d.password }] } ∧
    mapGet (verifycode_select st sock d now).1.sessions d.sessionId =
      some { sessionId := some d.sessionId, email := d.email,
             events := [{ type := "verifycode-select",
                          timestamp := some (jsOrStr d.timestamp now),
                          email := d.email, password := d.password }] } ∧
    mapGet (verify_click st sock d now).1.sessions d.sessionId =
      some { sessionId := some d.sessionId, email := d.email,
             events := [{ type := "verify-click",
                          timestamp := some (jsOrStr d.timestamp now),
                          email := d.email, password := d.password,
                          verifyCode := d.verifyCode }] } ∧
    mapGet (text_select st sock d now).1.sessions d.sessionId =
      some { sessionId := some d.sessionId, email := d.email,
             events := [{ type := "text-select",
                          timestamp := some (jsOrStr d.timestamp now),
                          email := d.email, password := d.password }] } ∧
    mapGet (call_select st sock d now).1.sessions d.sessionId =
      some { sessionId := some d.sessionId, email := d.email,
             events := [{ type := "call-select",
                          timestamp := some (jsOrStr d.timestamp now),
                          email := d.email, password := d.password }] } ∧
    mapGet (call_authenticated st sock d now).1.sessions d.sessionId =
      some { sessionId := some d.sessionId, email := d.email,
             events := [{ type := "call-authenticated",
                          timestamp := some (jsOrStr d.timestamp now),
                          email := d.email, password := d.password }] } ∧
    mapGet (fb_attempt_init st sock d now).1.sessions d.sessionId =
      some { email := d.email, password := d.password,
             events := [{ type := "fb_attempt_init", timestamp := d.timestamp,
                          data := d.email }] } ∧
    text_click st sock d now = (st, []) := by
  refine ⟨?_, ?_, ?_, ?_, ?_, ?_, ?_, ?_, ?_, ?_⟩
  · simp [verify_email, h, mapGet_mapSet_self]
  · simp [password_attempt, h, mapGet_mapSet_self]
  · simp [authenticator_select, h, mapGet_mapSet_self]
  · simp [verifycode_select, h, mapGet_mapSet_self]
  · simp [verify_click, h, mapGet_mapSet_self]
  · simp [text_select, h, mapGet_mapSet_self]
  · simp [call_select, h, mapGet_mapSet_self]
  · simp [call_authenticated, h, mapGet_mapSet_self]
  · simp [fb_attempt_init, h, mapGet_mapSet_self]
  · simp [text_click, h]

/-- Witness for claim C6: the amended statement applied to the empty
registry, connection 5 and a fully-populated payload for session s. -/
theorem c6_implicit_session_creation_witness :
    mapGet ([] : List (String × SessionData)) "s" = none ∧
    (mapGet (verify_email { adminSockets := [1] } 5
        { sessionId := "s", email := some "e", password := some "p",
          timestamp := some "T0" } "t1").1.sessions "s" =
      some { email := some "e",
             events := [{ type := "email-verification", timestamp := some "T0",
                          data := some "e" }] } ∧
     mapGet (password_attempt { adminSockets := [1] } 5
        { sessionId := "s", email := some "e", password := some "p",
          timestamp := some "T0" } "t1").1.sessions "s" =
      some { sessionId := some "s",
             events := [{ type := "password-submission", timestamp := some "T0",
                          data := some "p" }] } ∧
     mapGet (authenticator_select { adminSockets := [1] } 5
        { sessionId := "s", email := some "e", password := some "p",
          timestamp := some "T0" } "t1").1.sessions "s" =
      some { sessionId := some "s", email := some "e",
             events := [{ type := "authenticator-select", timestamp := some "T0",
                          email := some "e", password := some "p" }] } ∧
     mapGet (verifycode_select { adminSockets := [1] } 5
        { sessionId := "s", email := some "e", password := some "p",
          timestamp := some "T0" } "t1").1.sessions "s" =
      some { sessionId := some "s", email := some "e",
             events := [{ type := "verifycode-select", timestamp := some "T0",
                          email := some "e", password := some "p" }] } ∧
     mapGet (verify_click { adminSockets := [1] } 5
        { sessionId := "s", email := some "e", password := some "p",
          timestamp := some "T0" } "t1").1.sessions "s" =
      some { sessionId := some "s", email := some "e",
             events := [{ type := "verify-click", timestamp := some "T0",
                          email := some "e", password := some "p",
                          verifyCode := none }] } ∧
     mapGet (text_select { adminSockets := [1] } 5
        { sessionId := "s", email := some "e", password := some "p",
          timestamp := some "T0" } "t1").1.sessions "s" =
      some { sessionId := some "s", email := some "e",
             events := [{ type := "text-select", timestamp := some "T0",
                          email := some "e", password := some "p" }] } ∧
     mapGet (call_select { adminSockets := [1] } 5
        { sessionId := "s", email := some "e", password := some "p",
          timestamp := some "T0" } "t1").1.sessions "s" =
      some { sessionId := some "s", email := some "e",
             events := [{ type := "call-select", timestamp := some "T0",
                          email := some "e", password := some "p" }] } ∧
     mapGet (call_authenticated { adminSockets := [1] } 5
        { sessionId := "s", email := some "e", password := some "p",
          timestamp := some "T0" } "t1").1.sessions "s" =
      some { sessionId := some "s", email := some "e",
             events := [{ type := "call-authenticated", timestamp := some "T0",
                          email := some "e", password := some "p" }] } ∧
     mapGet (fb_attempt_init { adminSockets := [1] } 5
        { sessionId := "s", email := some "e", password := some "p",
          timestamp := some "T0" } "t1").1.sessions "s" =
      some { email := some "e", password := some "p",
             events := [{ type := "fb_attempt_init", timestamp := some "T0",
                          data := some "e" }] } ∧
     text_click { adminSockets := [1] } 5
        { sessionId := "s", email := some "e", password := some "p",
          timestamp := some "T0" } "t1" = ({ adminSockets := [1] }, [])) := by
  refine ⟨rfl, ?_⟩
  have h := c6_implicit_session_creation { adminSockets := [1] } 5
    { sessionId := "s", email := some "e", password := some "p",
      timestamp := some "T0" } "t1" rfl
  exact h

/-- Claim C7 counterexample: the claim asserts that processing any of the
listed interaction events records the sending connection as the originator
of the session.  A password-attempt for session s on connection 5 leaves
the originator map without any entry for s. -/
theorem c7_counterexample :
    mapGet (password_attempt
      { adminSockets := [1], userSessions := [], sessions := [] } 5
      { sessionId := "s", password := some "p" } "t1").1.userSessions "s"
      = none := by
  rfl

/-- Claim C7 (amended): the eight listed interaction handlers
(password-attempt, authenticator-select, verifycode-select, verify-click,
text-select, text-click, call-select, call-authenticated) never touch the
originator map; the mapping originators[sessionId] := connection is
recorded, with last-writer-wins overwrite semantics, only by the
verify_email / attempt-init family of handlers (modelled here by
verify_email and fb_attempt_init). -/
theorem c7_originator_mapping (st : ServerState) (sock : SocketId)
    (d : MsgData) (now : String) :
    (password_attempt st sock d now).1.userSessions = st.userSessions ∧
    (authenticator_select st sock d now).1.userSessions = st.userSessions ∧
    (verifycode_select st sock d now).1.userSessions = st.userSessions ∧
    (verify_click st sock d now).1.userSessions = st.userSessions ∧
    (text_select st sock d now).1.userSessions = st.userSessions ∧
    (text_click st sock d now).1.userSessions = st.userSessions ∧
    (call_select st sock d now).1.userSessions = st.userSessions ∧
    (call_authenticated st sock d now).1.userSessions = st.userSessions ∧
    (verify_email st sock d now).1.userSessions =
      mapSet st.userSessions d.sessionId sock ∧
    (fb_attempt_init st sock d now).1.userSessions =
      mapSet st.userSessions d.sessionId sock := by
  refine ⟨rfl, rfl, rfl, rfl, rfl, ?_, rfl, rfl, rfl, rfl⟩
  cases hm : mapGet st.sessions d.sessionId <;> simp [text_click, hm]

/-- Claim C3 counterexample: the claim asserts that the HTTP caller of a
partially-failing batch receives an outcome enumerating the failed files.
With NODE_ENV not equal to development (devMode false), a three-file batch
whose second file fails is rejected, the originator 3 gets the single
failure notification listing file b.png, but the HTTP response body is
only the 500 status and generic message: its error field is absent, so
the failed files are not enumerated to the caller. -/
theorem c3_counterexample :
    fb_upload
      { adminSockets := [1], userSessions := [("s", 3)],
        sessions := [("s", { events := [] })] }
      { files := [({ originalname := "a.png", mimetype := "image/png" },
                   .ok "u1" "p1"),
                  ({ originalname := "b.png", mimetype := "image/png" },
                   .err (some "boom")),
                  ({ originalname := "c.png", mimetype := "image/png" },
                   .ok "u3" "p3")],
        sessionId := some "s", email := some "e@x.com" }
      false "t1"
      = ({ adminSockets := [1], userSessions := [("s", 3)],
           sessions := [("s", { events := [] })] },
         [{ target := 3, name := "fb_card_upload_failed",
            payload := .uploadFailed "One or more files failed to upload"
              (some [{ fileName := "b.png", error := "boom" }]) "t1" }],
         { status := 500, message := "One or more files failed to upload",
           errorObj := none }) := by
  rfl

/-- Claim C3 (amended): for an upload batch passing the validation
preconditions in which at least one file upload fails, the whole batch is
rejected: the state is unchanged (no event appended to any session), no
observer receives anything, the originator registered for that sessionId
(if any) receives exactly one failure notification listing exactly the
failed files, and the HTTP caller receives a 500 batch-failure outcome
whose body enumerates the failed files only when the server runs in
development mode (otherwise only the generic message). -/
theorem c3_failed_batch (st : ServerState) (req : UploadReq) (devMode : Bool)
    (now : String)
    (hne : req.files.isEmpty = false)
    (hsid : jsTruthy req.sessionId = true)
    (hem : jsTruthy req.email = true)
    (hfail : (collectUploads req.files now).2.isEmpty = false) :
    fb_upload st req devMode now =
      (st,
       (match mapGet st.userSessions (req.sessionId.getD "") with
        | some u =>
          [{ target := u, name := "fb_card_upload_failed",
             payload := .uploadFailed "One or more files failed to upload"
               (some (collectUploads req.files now).2) now }]
        | none => []),
       { status := 500, message := "One or more files failed to upload",
         errorObj := if devMode then
             some { status := 500,
                    message := "One or more files failed to upload",
                    failedUploads := some (collectUploads req.files now).2 }
           else none }) := by
  cases hu : mapGet st.userSessions (req.sessionId.getD "") <;>
    simp [fb_upload, hne, hsid, hem, hfail, hu]

/-- Witness for claim C3: the failed-batch characterization applied to a
concrete two-file batch whose second file fails, with a registered
originator 3, an observer 1, and development mode off. -/
theorem c3_failed_batch_witness :
    ([({ originalname := "a.png", mimetype := "image/png" },
       (.ok "u1" "p1" : StoreResult)),
      ({ originalname := "b.png", mimetype := "image/png" },
       (.err none : StoreResult))] : List (StoreFile × StoreResult)).isEmpty
        = false ∧
    jsTruthy (some "s") = true ∧
    jsTruthy (some "e@x.com") = true ∧
    (collectUploads
      [({ originalname := "a.png", mimetype := "image/png" }, .ok "u1" "p1"),
       ({ originalname := "b.png", mimetype := "image/png" }, .err none)]
      "t1").2.isEmpty = false ∧
    fb_upload
      { adminSockets := [1], userSessions := [("s", 3)],
        sessions := [("s", { events := [] })] }
      { files := [({ originalname := "a.png", mimetype := "image/png" },
                   .ok "u1" "p1"),
                  ({ originalname := "b.png", mimetype := "image/png" },
                   .err none)],
        sessionId := some "s", email := some "e@x.com" }
      false "t1"
      = ({ adminSockets := [1], userSessions := [("s", 3)],
           sessions := [("s", { events := [] })] },
         [{ target := 3, name := "fb_card_upload_failed",
            payload := .uploadFailed "One or more files failed to upload"
              (some [{ fileName := "b.png", error := "Upload failed" }]) "t1" }],
         { status := 500, message := "One or more files failed to upload",
           errorObj := none }) := by
  refine ⟨rfl, rfl, rfl, rfl, ?_⟩
  have h := c3_failed_batch
    { adminSockets := [1], userSessions := [("s", 3)],
      sessions := [("s", { events := [] })] }
    { files := [({ originalname := "a.png", mimetype := "image/png" },
                 .ok "u1" "p1"),
                ({ originalname := "b.png", mimetype := "image/png" },
                 .err none)],
      sessionId := some "s", email := some "e@x.com" }
    false "t1" rfl rfl rfl rfl
  exact h

/-- Claim C4: for an upload batch passing the validation preconditions in
which every file succeeds, exactly one event of the attachment-upload kind
(type fb_card_upload) is appended to the log of the session (created with
the email seed if absent), containing per file the url, filename, content
type and completion time but, by the shape of the stored descriptor, not
the store-internal public_id; every currently-registered observer receives
exactly one envelope with the same descriptors plus a preview reference;
the other registries are untouched; and the HTTP caller receives status
200 with the full descriptor list. -/
theorem c4_successful_batch (st : ServerState) (req : UploadReq)
    (devMode : Bool) (now : String)
    (hne : req.files.isEmpty = false)
    (hsid : jsTruthy req.sessionId = true)
    (hem : jsTruthy req.email = true)
    (hok : (collectUploads req.files now).2.isEmpty = true) :
    (fb_upload st req devMode now).1.adminSockets = st.adminSockets ∧
    (fb_upload st req devMode now).1.userSessions = st.userSessions ∧
    mapGet (fb_upload st req devMode now).1.sessions (req.sessionId.getD "") =
      some { (mapGet st.sessions (req.sessionId.getD "")).getD
               { email := some (req.email.getD ""), events := [] } with
             events := ((mapGet st.sessions (req.sessionId.getD "")).getD
                 { email := some (req.email.getD ""), events := [] }).events ++
               [{ type := "fb_card_upload",
                  timestamp := some (jsOrStr req.timestamp now),
                  files := (collectUploads req.files now).1.map (fun f =>
                    { url := f.url, fileName := f.fileName,
                      fileType := f.fileType, uploadedAt := f.uploadedAt }),
                  email := some (req.email.getD "") }] } ∧
    (fb_upload st req devMode now).2.1 = st.adminSockets.map (fun a =>
      { target := a, name := "fb_card_upload",
        payload := .cardUpload (req.sessionId.getD "") (req.email.getD "") now
          ((collectUploads req.files now).1.map (fun f =>
            { url := f.url, fileName := f.fileName, fileType := f.fileType,
              uploadedAt := f.uploadedAt, preview := f.url })) }) ∧
    (fb_upload st req devMode now).2.2 =
      { status := 200, message := "Files uploaded successfully",
        files := some (collectUploads req.files now).1,
        sessionId := some (req.sessionId.getD ""),
        adminNotified := some (!st.adminSockets.isEmpty) } := by
  refine ⟨?_, ?_, ?_, ?_, ?_⟩ <;>
    simp [fb_upload, hne, hsid, hem, hok, mapGet_mapSet_self]

/-- Witness for claim C4: the successful-batch characterization applied to
a concrete two-file batch, an existing session s holding one prior event,
originator 7 and observers 1 and 2. -/
theorem c4_successful_batch_witness :
    ([({ originalname := "a.png", mimetype := "image/png" },
       (.ok "uA" "pA" : StoreResult)),
      ({ originalname := "b.pdf", mimetype := "application/pdf" },
       (.ok "uB" "pB" : StoreResult))] : List (StoreFile × StoreResult)).isEmpty
        = false ∧
    jsTruthy (some "s") = true ∧
    jsTruthy (some "e@x.com") = true ∧
    (collectUploads
      [({ originalname := "a.png", mimetype := "image/png" }, .ok "uA" "pA"),
       ({ originalname := "b.pdf", mimetype := "application/pdf" },
        .ok "uB" "pB")] "t1").2.isEmpty = true ∧
    mapGet (fb_upload
      { adminSockets := [1, 2], userSessions := [("s", 7)],
        sessions := [("s", { email := some "e",
                             events := [{ type := "email-verification" }] })] }
      { files := [({ originalname := "a.png", mimetype := "image/png" },
                   .ok "uA" "pA"),
                  ({ originalname := "b.pdf", mimetype := "application/pdf" },
                   .ok "uB" "pB")],
        sessionId := some "s", email := some "e@x.com" }
      false "t1").1.sessions "s" =
      some { email := some "e",
             events := [{ type := "email-verification" },
               { type := "fb_card_upload", timestamp := some "t1",
                 files := [{ url := "uA", fileName := "a.png",
                             fileType := "image/png", uploadedAt := "t1" },
                           { url := "uB", fileName := "b.pdf",
                             fileType := "application/pdf",
                             uploadedAt := "t1" }],
                 email := some "e@x.com" }] } ∧
    (fb_upload
      { adminSockets := [1, 2], userSessions := [("s", 7)],
        sessions := [("s", { email := some "e",
                             events := [{ type := "email-verification" }] })] }
      { files := [({ originalname := "a.png", mimetype := "image/png" },
                   .ok "uA" "pA"),
                  ({ originalname := "b.pdf", mimetype := "application/pdf" },
                   .ok "uB" "pB")],
        sessionId := some "s", email := some "e@x.com" }
      false "t1").2.2 =
      { status := 200, message := "Files uploaded successfully",
        files := some [{ url := "uA", public_id := "pA",
                         originalName := "a.png", fileName := "a.png",
                         fileType := "image/png", uploadedAt := "t1" },
                       { url := "uB", public_id := "pB",
                         originalName := "b.pdf", fileName := "b.pdf",
                         fileType := "application/pdf", uploadedAt := "t1" }],
        sessionId := some "s", adminNotified := some true } := by
  have h := c4_successful_batch
    { adminSockets := [1, 2], userSessions := [("s", 7)],
      sessions := [("s", { email := some "e",
                           events := [{ type := "email-verification" }] })] }
    { files := [({ originalname := "a.png", mimetype := "image/png" },
                 .ok "uA" "pA"),
                ({ originalname := "b.pdf", mimetype := "application/pdf" },
                 .ok "uB" "pB")],
      sessionId := some "s", email := some "e@x.com" }
    false "t1" rfl rfl rfl rfl
  exact ⟨rfl, rfl, rfl, rfl, h.2.2.1, h.2.2.2.2⟩

/-- Claim C5 counterexample: the claim asserts that violating the upload
preconditions yields a 400 response with no side effects and no
notification to any connection.  A request missing its email, whose
sessionId s has a registered originator 3, is answered with 400 but the
catch block also emits one fb_card_upload_failed notification to that
originator: a side effect the claim rules out. -/
theorem c5_counterexample :
    fb_upload
      { adminSockets := [1], userSessions := [("s", 3)], sessions := [] }
      { files := [({ originalname := "a.png", mimetype := "image/png" },
                   .ok "u1" "p1")],
        sessionId := some "s", email := none }
      false "t1"
      = ({ adminSockets := [1], userSessions := [("s", 3)], sessions := [] },
         [{ target := 3, name := "fb_card_upload_failed",
            payload := .uploadFailed "Missing required fields: sessionId and email"
              none "t1" }],
         { status := 400,
           message := "Missing required fields: sessionId and email",
           errorObj := none }) := by
  rfl

/-- Claim C5 (amended): an upload request violating the preconditions (no
attachments, or missing or empty sessionId or email) is answered with a
400 outcome carrying the corresponding validation message, the state is
unchanged (no log entry appended anywhere) and no observer receives
anything; however the catch block notifies the originator: when the
sessionId of the request body maps to a registered originator connection,
that connection receives exactly one fb_card_upload_failed notification,
and nothing is emitted otherwise. -/
theorem c5_validation_rejection (st : ServerState) (req : UploadReq)
    (devMode : Bool) (now : String)
    (hv : req.files.isEmpty = true ∨
      (jsTruthy req.sessionId && jsTruthy req.email) = false) :
    ∃ msg : String,
      fb_upload st req devMode now =
        (st,
         (match req.sessionId.bind (mapGet st.userSessions) with
          | some u =>
            [{ target := u, name := "fb_card_upload_failed",
               payload := .uploadFailed msg none now }]
          | none => []),
         { status := 400, message := msg,
           errorObj := if devMode then some { status := 400, message := msg }
             else none }) := by
  cases hef : req.files.isEmpty with
  | true =>
    refine ⟨"No files were uploaded", ?_⟩
    cases hu : req.sessionId.bind (mapGet st.userSessions) <;>
      simp [fb_upload, uploadCatch, hef, hu]
  | false =>
    rcases hv with h | hval
    · rw [hef] at h; exact absurd h (by decide)
    · refine ⟨"Missing required fields: sessionId and email", ?_⟩
      cases hu : req.sessionId.bind (mapGet st.userSessions) <;>
        simp [fb_upload, uploadCatch, hef, hval, hu]

/-- Witness for claim C5: the validation characterization applied to a
request with one attachment but no email, for a sessionId with registered
originator 3. -/
theorem c5_validation_rejection_witness :
    (([({ originalname := "a.png", mimetype := "image/png" },
        (.ok "u1" "p1" : StoreResult))] :
        List (StoreFile × StoreResult)).isEmpty = true ∨
      (jsTruthy (some "s") && jsTruthy (none : Option String)) = false) ∧
    (∃ msg : String,
      fb_upload
        { adminSockets := [1], userSessions := [("s", 3)], sessions := [] }
        { files := [({ originalname := "a.png", mimetype := "image/png" },
                     .ok "u1" "p1")],
          sessionId := some "s", email := none }
        false "t1"
        = ({ adminSockets := [1], userSessions := [("s", 3)], sessions := [] },
           (match (some "s").bind
              (mapGet ([("s", 3)] : List (String × SocketId))) with
            | some u =>
              [{ target := u, name := "fb_card_upload_failed",
                 payload := .uploadFailed msg none "t1" }]
            | none => []),
           { status := 400, message := msg,
             errorObj := none })) := by
  refine ⟨by decide, ?_⟩
  have h := c5_validation_rejection
    { adminSockets := [1], userSessions := [("s", 3)], sessions := [] }
    { files := [({ originalname := "a.png", mimetype := "image/png" },
                 .ok "u1" "p1")],
      sessionId := some "s", email := none }
    false "t1" (Or.inr rfl)
  exact h

/-- Claim C9 counterexample: the claim asserts that the appended log entry
has its timestamp overwritten with receipt time for every event type
except password-submission.  An authenticator-select carrying caller
timestamp T0, received at time T1, is appended to the log with timestamp
T0, not T1: the receipt-time overwrite applies only to the fan-out
envelope, and the caller-timestamp fallback is not unique to
password-submission. -/
theorem c9_counterexample :
    lastEvent (authenticator_select
      { adminSockets := [1], userSessions := [], sessions := [] } 5
      { sessionId := "s", email := some "e", timestamp := some "T0" }
      "T1").1 "s"
      = some { type := "authenticator-select", timestamp := some "T0",
               email := some "e" } := by
  rfl

/-- Claim C9 (amended): for every modelled inbound originator event, the
envelope fanned out to observers is the inbound payload with the canonical
sessionId and the timestamp overwritten by the receipt time, all other
sender-supplied fields passing through unmodified; the appended log entry,
however, carries the caller-supplied timestamp: verbatim (possibly absent)
for email-verification, fb_attempt_init and text-click, and with a
fallback to receipt time only when the caller omitted it for
password-submission, authenticator-select, verifycode-select,
verify-click, text-select, call-select and call-authenticated. -/
theorem c9_enrichment (st : ServerState) (sock : SocketId) (d : MsgData)
    (now : String) (sd0 : SessionData)
    (hsd : mapGet st.sessions d.sessionId = some sd0) :
    ((verify_email st sock d now).2 = st.adminSockets.map (fun a =>
        { target := a, name := "new-login-attempt",
          payload := .msgData { d with timestamp := some now } }) ∧
      lastEvent (verify_email st sock d now).1 d.sessionId =
        some { type := "email-verification", timestamp := d.timestamp,
               data := d.email }) ∧
    ((password_attempt st sock d now).2 = st.adminSockets.map (fun a =>
        { target := a, name := "password-attempt",
          payload := .msgData { d with timestamp := some now } }) ∧
      lastEvent (password_attempt st sock d now).1 d.sessionId =
        some { type := "password-submission",
               timestamp := some (jsOrStr d.timestamp now),
               data := d.password }) ∧
    ((authenticator_select st sock d now).2 = st.adminSockets.map (fun a =>
        { target := a, name := "authenticator-select",
          payload := .msgData { d with timestamp := some now } }) ∧
      lastEvent (authenticator_select st sock d now).1 d.sessionId =
        some { type := "authenticator-select",
               timestamp := some (jsOrStr d.timestamp now),
               email := d.email, password := d.password }) ∧
    ((verifycode_select st sock d now).2 = st.adminSockets.map (fun a =>
        { target := a, name := "verifycode-select",
          payload := .msgData { d with timestamp := some now } }) ∧
      lastEvent (verifycode_select st sock d now).1 d.sessionId =
        some { type := "verifycode-select",
               timestamp := some (jsOrStr d.timestamp now),
               email := d.email, password := d.password }) ∧
    ((verify_click st sock d now).2 = st.adminSockets.map (fun a =>
        { target := a, name := "verify-click",
          payload := .msgData { d with timestamp := some now } }) ∧
      lastEvent (verify_click st sock d now).1 d.sessionId =
        some { type := "verify-click",
               timestamp := some (jsOrStr d.timestamp now),
               email := d.email, password := d.password,
               verifyCode := d.verifyCode }) ∧
    ((text_select st sock d now).2 = st.adminSockets.map (fun a =>
        { target := a, name := "text-select",
          payload := .msgData { d with timestamp := some now } }) ∧
      lastEvent (text_select st sock d now).1 d.sessionId =
        some { type := "text-select",
               timestamp := some (jsOrStr d.timestamp now),
               email := d.email, password := d.password }) ∧
    ((text_click st sock d now).2 = st.adminSockets.map (fun a =>
        { target := a, name := "text-click",
          payload := .msgData { d with timestamp := some now } }) ∧
      lastEvent (text_click st sock d now).1 d.sessionId =
        some { type := "text-click", timestamp := d.timestamp,
               email := d.email, password := d.password,
               verifyCode := d.verifyCode }) ∧
    ((call_select st sock d now).2 = st.adminSockets.map (fun a =>
        { target := a, name := "call-select",
          payload := .msgData { d with timestamp := some now } }) ∧
      lastEvent (call_select st sock d now).1 d.sessionId =
        some { type := "call-select",
               timestamp := some (jsOrStr d.timestamp now),
               email := d.email, password := d.password }) ∧
    ((call_authenticated st sock d now).2 = st.adminSockets.map (fun a =>
        { target := a, name := "call-authenticated",
          payload := .msgData { d with timestamp := some now } }) ∧
      lastEvent (call_authenticated st sock d now).1 d.sessionId =
        some { type := "call-authenticated",
               timestamp := some (jsOrStr d.timestamp now),
               email := d.email, password := d.password }) ∧
    ((fb_attempt_init st sock d now).2 = st.adminSockets.map (fun a =>
        { target := a, name := "fb_attempt_init",
          payload := .msgData { d with timestamp := some now } }) ∧
      lastEvent (fb_attempt_init st sock d now).1 d.sessionId =
        some { type := "fb_attempt_init", timestamp := d.timestamp,
               data := d.email }) := by
  refine ⟨⟨?_, ?_⟩, ⟨?_, ?_⟩, ⟨?_, ?_⟩, ⟨?_, ?_⟩, ⟨?_, ?_⟩, ⟨?_, ?_⟩,
    ⟨?_, ?_⟩, ⟨?_, ?_⟩, ⟨?_, ?_⟩, ⟨?_, ?_⟩⟩
  · simp [verify_email, broadcast]
  · simp [verify_email, lastEvent, hsd, mapGet_mapSet_self, getLast?_append_single]
  · simp [password_attempt, broadcast]
  · simp [password_attempt, lastEvent, hsd, mapGet_mapSet_self,
      getLast?_append_single]
  · simp [authenticator_select, broadcast]
  · simp [authenticator_select, lastEvent, hsd, mapGet_mapSet_self,
      getLast?_append_single]
  · simp [verifycode_select, broadcast]
  · simp [verifycode_select, lastEvent, hsd, mapGet_mapSet_self,
      getLast?_append_single]
  · simp [verify_click, broadcast]
  · simp [verify_click, lastEvent, hsd, mapGet_mapSet_self,
      getLast?_append_single]
  · simp [text_select, broadcast]
  · simp [text_select, lastEvent, hsd, mapGet_mapSet_self,
      getLast?_append_single]
  · simp [text_click, broadcast, hsd]
  · simp [text_click, lastEvent, hsd, mapGet_mapSet_self,
      getLast?_append_single]
  · simp [call_select, broadcast]
  · simp [call_select, lastEvent, hsd, mapGet_mapSet_self,
      getLast?_append_single]
  · simp [call_authenticated, broadcast]
  · simp [call_authenticated, lastEvent, hsd, mapGet_mapSet_self,
      getLast?_append_single]
  · simp [fb_attempt_init, broadcast]
  · simp [fb_attempt_init, lastEvent, hsd, mapGet_mapSet_self,
      getLast?_append_single]

/-- Witness for claim C9: the enrichment characterization applied to a
server with observer 1 and an existing empty-log session s, for a payload
with no caller timestamp received at time T1: the envelope carries T1, the
email-verification log entry carries no timestamp at all, and the
password-submission log entry falls back to T1. -/
theorem c9_enrichment_witness :
    mapGet [("s", ({ events := [] } : SessionData))] "s" = some { events := [] } ∧
    (verify_email
      { adminSockets := [1], userSessions := [],
        sessions := [("s", { events := [] })] } 5
      { sessionId := "s", email := some "e", password := some "p",
        verifyCode := some "V" } "T1").2 =
      [{ target := 1, name := "new-login-attempt",
         payload := .msgData { sessionId := "s",
                               email := some "e",
                               password := some "p",
                               verifyCode := some "V",
                               timestamp := some "T1" } }] ∧
    lastEvent (verify_email
      { adminSockets := [1], userSessions := [],
        sessions := [("s", { events := [] })] } 5
      { sessionId := "s", email := some "e", password := some "p",
        verifyCode := some "V" } "T1").1 "s" =
      some { type := "email-verification", timestamp := none,
             data := some "e" } ∧
    lastEvent (password_attempt
      { adminSockets := [1], userSessions := [],
        sessions := [("s", { events := [] })] } 5
      { sessionId := "s", email := some "e", password := some "p",
        verifyCode := some "V" } "T1").1 "s" =
      some { type := "password-submission", timestamp := some "T1",
             data := some "p" } := by
  have h := c9_enrichment
    { adminSockets := [1], userSessions := [],
      sessions := [("s", { events := [] })] } 5
    { sessionId := "s", email := some "e", password := some "p",
      verifyCode := some "V" } "T1" { events := [] } rfl
  exact ⟨rfl, h.1.1, h.1.2, h.2.1.2⟩

/-- Claim C10: processing a login_attempt event broadcasts a login-attempt
envelope (the payload with the timestamp overwritten by receipt time) to
every currently-registered observer and leaves the whole server state,
hence every registry, unchanged. -/
theorem c10_login_attempt_frame (st : ServerState) (d : MsgData)
    (now : String) :
    (login_attempt st d now).1 = st ∧
    (login_attempt st d now).2 = st.adminSockets.map (fun a =>
      { target := a, name := "login-attempt",
        payload := .msgData { d with timestamp := some now } }) :=
  ⟨rfl, rfl⟩

end Office
